import Mathlib

/-!
# Verification of the egui `Context` frame/interaction engine

A shallow embedding of `crates/egui/src/context.rs`: the repaint scheduler
(`Repaint`), the frame lifecycle (`begin_frame_mut` / `end_frame`), the
viewport registry sweep, and the pointer-interaction arbiter
(`interact` / `interact_with_hovered` / `check_for_id_clash`).

Coordinates are modelled over `Rat` (the source uses `f32`; the geometric
predicates at stake are exact comparisons, so the rational model is the
intended real-number semantics).  The squared-distance comparison
`distance < 4.0` is embedded as `dist_sq < 16`, which is equivalent for
nonnegative reals.

Geometry primitives (`Rect.contains`, `expand`, `intersect`, …) live in the
`epaint` crate of this repository, which is not part of the sources under
review; they are modelled from the spec with standard closed-rectangle
semantics (interact rectangles are hit-test areas; containment is inclusive).
-/

namespace Egui

/-- Widget identifier (`egui::Id`, an opaque hash). -/
abbrev Id := Nat

/-- Surface identifier (`ViewportId`); `ViewportId::MAIN` is `0`. -/
abbrev ViewportId := Nat

/-- `ViewportId::MAIN`, the reserved root surface id. -/
def ViewportId.MAIN : ViewportId := 0

/-- `ViewportIdPair { this, parent }`: a surface and the surface that spawned it. -/
structure ViewportIdPair where
  thisId : ViewportId
  parent : ViewportId
deriving DecidableEq

/-- `ViewportIdPair::MAIN`: the root pair (root is its own parent). -/
def ViewportIdPair.MAIN : ViewportIdPair := ⟨ViewportId.MAIN, ViewportId.MAIN⟩

instance : Inhabited ViewportIdPair := ⟨ViewportIdPair.MAIN⟩

/-- Modelled from the spec: 2-D point of the external `epaint` geometry
(missing from the reviewed sources), with exact rational coordinates. -/
structure Pos2 where
  x : Rat
  y : Rat
deriving DecidableEq

/-- Modelled from the spec: 2-D vector of the external `epaint` geometry. -/
structure Vec2 where
  x : Rat
  y : Rat
deriving DecidableEq

/-- `Vec2::splat(v)`. -/
def Vec2.splat (v : Rat) : Vec2 := ⟨v, v⟩

/-- Componentwise `at_least` (componentwise max, as in `epaint`). -/
def Vec2.at_least (a b : Vec2) : Vec2 := ⟨max a.x b.x, max a.y b.y⟩

/-- Componentwise `at_most` (componentwise min, as in `epaint`). -/
def Vec2.at_most (a b : Vec2) : Vec2 := ⟨min a.x b.x, min a.y b.y⟩

/-- Vector subtraction. -/
def Vec2.sub (a b : Vec2) : Vec2 := ⟨a.x - b.x, a.y - b.y⟩

/-- Scalar multiplication. -/
def Vec2.scale (s : Rat) (v : Vec2) : Vec2 := ⟨s * v.x, s * v.y⟩

/-- Squared Euclidean distance between two points; `p.distance q < c` in the
source is embedded as `Pos2.dist_sq p q < c ^ 2`. -/
def Pos2.dist_sq (p q : Pos2) : Rat := (p.x - q.x) ^ 2 + (p.y - q.y) ^ 2

/-- Modelled from the spec: axis-aligned rectangle of the external `epaint`
geometry, closed on all sides. -/
structure Rect where
  min : Pos2
  max : Pos2
deriving DecidableEq

namespace Rect

/-- `Rect::contains(pos)`: inclusive containment of a point. -/
def contains (r : Rect) (p : Pos2) : Bool :=
  r.min.x ≤ p.x && p.x ≤ r.max.x && r.min.y ≤ p.y && p.y ≤ r.max.y

/-- `Rect::contains_rect(other)`: contains both corners. -/
def contains_rect (r o : Rect) : Bool :=
  r.contains o.min && r.contains o.max

/-- `Rect::expand(d)`: grow by `d` on every side. -/
def expand (r : Rect) (d : Rat) : Rect :=
  ⟨⟨r.min.x - d, r.min.y - d⟩, ⟨r.max.x + d, r.max.y + d⟩⟩

/-- `Rect::expand2(v)`: grow by `v.x` horizontally and `v.y` vertically. -/
def expand2 (r : Rect) (v : Vec2) : Rect :=
  ⟨⟨r.min.x - v.x, r.min.y - v.y⟩, ⟨r.max.x + v.x, r.max.y + v.y⟩⟩

/-- `Rect::intersect(other)`: componentwise max of mins, min of maxes. -/
def intersect (a b : Rect) : Rect :=
  ⟨⟨Max.max a.min.x b.min.x, Max.max a.min.y b.min.y⟩,
   ⟨Min.min a.max.x b.max.x, Min.min a.max.y b.max.y⟩⟩

/-- `Rect::is_positive()`: strictly positive width and height. -/
def is_positive (r : Rect) : Bool :=
  r.min.x < r.max.x && r.min.y < r.max.y

/-- `Rect::center()`. -/
def center (r : Rect) : Pos2 :=
  ⟨(r.min.x + r.max.x) / 2, (r.min.y + r.max.y) / 2⟩

end Rect

/-- `Sense`: the capability mask of a widget (clickable / draggable / focusable). -/
structure Sense where
  click : Bool
  drag : Bool
  focusable : Bool
deriving DecidableEq

/-- `Sense::interactive()`: `click || drag`. -/
def Sense.interactive (s : Sense) : Bool := s.click || s.drag

/-- A rendering layer (an ordered z-group).  The z-order machinery lives in
`egui::layers` outside of the reviewed sources; per the spec layer ownership
is resolved externally, so we model a layer as an identifier plus the
`allow_interaction` capability the source queries on it. -/
structure LayerId where
  id : Nat
  allow_interaction : Bool
deriving DecidableEq

-- ---------------------------------------------------------------------------
-- Repaint scheduler (`struct Repaint` in context.rs)
-- ---------------------------------------------------------------------------

/-- `struct Repaint`: per-surface repaint-request counters and a wake callback.
The `HashMap`s with `or_default` reads are modelled as total functions with
default values; the callback is modelled by whether one is registered plus the
number of times it has been invoked. -/
structure Repaint where
  /-- `viewports_frame_nr`: per-surface frame number (default 0). -/
  viewports_frame_nr : ViewportId → Nat
  /-- `repaint_request`: while positive, keep requesting repaints (default 0). -/
  repaint_request : ViewportId → Nat
  /-- Whether `request_repaint_callback` is `Some`. -/
  has_callback : Bool
  /-- Number of invocations of the wake callback so far. -/
  callback_invocations : Nat
  /-- `requested_repaint_last_frame` (default false). -/
  requested_repaint_last_frame : ViewportId → Bool

/-- `Repaint::default()`. -/
def Repaint.default : Repaint :=
  { viewports_frame_nr := fun _ => 0
    repaint_request := fun _ => 0
    has_callback := false
    callback_invocations := 0
    requested_repaint_last_frame := fun _ => false }

instance : Inhabited Repaint := ⟨Repaint.default⟩

/-- Pointwise update of a map modelled as a total function. -/
def updFn {α β : Type} [DecidableEq α] (f : α → β) (a : α) (b : β) : α → β :=
  fun x => if x = a then b else f x

namespace Repaint

/-- `Repaint::request_repaint_after`: raise the counter to at least 1 and
invoke the wake callback if registered (the `after` duration is only passed
through to the callback). -/
def request_repaint_after (r : Repaint) (viewport_id : ViewportId) : Repaint :=
  let r := { r with
    repaint_request :=
      updFn r.repaint_request viewport_id (max 1 (r.repaint_request viewport_id)) }
  if r.has_callback then
    { r with callback_invocations := r.callback_invocations + 1 }
  else
    r

/-- `Repaint::request_repaint`: request with zero delay. -/
def request_repaint (r : Repaint) (viewport_id : ViewportId) : Repaint :=
  r.request_repaint_after viewport_id

/-- `Repaint::request_repaint_settle`: set the counter to exactly 2, then
request immediately. -/
def request_repaint_settle (r : Repaint) (viewport_id : ViewportId) : Repaint :=
  let r := { r with repaint_request := updFn r.repaint_request viewport_id 2 }
  r.request_repaint viewport_id

/-- `Repaint::start_frame`: record whether a repaint was pending, decrement the
counter, and re-issue a request while it remains positive. -/
def start_frame (r : Repaint) (viewport_id : ViewportId) : Repaint :=
  let request := r.repaint_request viewport_id
  let r := { r with
    requested_repaint_last_frame :=
      updFn r.requested_repaint_last_frame viewport_id (request > 0) }
  if request > 0 then
    let r := { r with
      repaint_request := updFn r.repaint_request viewport_id (request - 1) }
    if request - 1 > 0 then r.request_repaint viewport_id else r
  else
    r

/-- `Repaint::end_frame`: bump the surface's frame number and prune the maps to
the reachable surfaces (pruning a total-function map resets pruned entries to
their defaults). -/
def end_frame (r : Repaint) (viewport_id : ViewportId) (viewports : List ViewportId) :
    Repaint :=
  let r := { r with
    viewports_frame_nr :=
      updFn r.viewports_frame_nr viewport_id (r.viewports_frame_nr viewport_id + 1) }
  { r with
    requested_repaint_last_frame :=
      fun id => if viewports.contains id then r.requested_repaint_last_frame id else false
    viewports_frame_nr :=
      fun id => if viewports.contains id then r.viewports_frame_nr id else 0
    repaint_request :=
      fun id => if viewports.contains id then r.repaint_request id else 0 }

end Repaint

-- ---------------------------------------------------------------------------
-- Input, memory and frame-state collaborators
-- ---------------------------------------------------------------------------

/-- Click classification (`epaint`/`egui` input model, external to the
reviewed sources): single / double / triple, precomputed by the input model. -/
structure Click where
  count : Nat
deriving DecidableEq

/-- `Click::is_double()`. -/
def Click.is_double (c : Click) : Bool := c.count == 2

/-- `Click::is_triple()`. -/
def Click.is_triple (c : Click) : Bool := c.count == 3

/-- Pointer button index (`PointerButton as usize`, 0 = primary). -/
abbrev PointerButton := Nat

/-- `PointerEvent`: the per-frame pointer event queue entries consumed by
`interact_with_hovered`. -/
inductive PointerEvent where
  | moved
  | pressed
  | released (click : Option Click) (button : PointerButton)
deriving DecidableEq

/-- Modelled from the spec: the pointer portion of the external input model
(`egui::input_state`, not under review) — current interact position, whether
any button is down, whether any click happened this frame, and the event
queue. -/
structure PointerState where
  interact_pos : Option Pos2
  any_down : Bool
  any_click : Bool
  pointer_events : List PointerEvent
deriving DecidableEq

/-- Modelled from the spec: the external per-surface input snapshot
(`InputState`, not under review).  Only the fields the reviewed code reads are
kept: the pointer state, the screen rectangle, space/enter key presses and the
implicit wants-repaint signal. -/
structure InputState where
  pointer : PointerState
  screen_rect : Rect
  key_space_pressed : Bool
  key_enter_pressed : Bool
  wants_repaint : Bool
deriving DecidableEq

/-- `InputState::default()`: empty pointer, zero screen rect, no keys. -/
def InputState.default : InputState :=
  { pointer := { interact_pos := none, any_down := false, any_click := false
                 pointer_events := [] }
    screen_rect := ⟨⟨0, 0⟩, ⟨0, 0⟩⟩
    key_space_pressed := false
    key_enter_pressed := false
    wants_repaint := false }

instance : Inhabited InputState := ⟨InputState.default⟩

/-- Modelled from the spec: the raw input fed to `begin_frame`.  The external
input model (`InputState::begin_frame`) folds raw platform events into the new
per-surface input snapshot; we abstract that fold as the snapshot it produces. -/
structure RawInput where
  as_input : InputState

/-- Modelled from the spec: `InputState::begin_frame` (external collaborator)
— feed the raw input into the per-surface input model, producing the new
snapshot. -/
def InputState.begin_frame (_old : InputState) (raw : RawInput) : InputState :=
  raw.as_input

/-- The capture state `memory.interaction` (from `egui::memory`, external to
the reviewed sources): which widget id holds click- and drag-capture, with the
window-drag low-priority flag. -/
structure Interaction where
  click_id : Option Id
  drag_id : Option Id
  drag_is_window : Bool
  click_interest : Bool
  drag_interest : Bool
deriving DecidableEq

/-- `Interaction` default: no captures. -/
def Interaction.default : Interaction :=
  { click_id := none, drag_id := none, drag_is_window := false
    click_interest := false, drag_interest := false }

/-- Modelled from the spec: the slice of `egui::Memory` (external to the
reviewed sources) that the reviewed code touches — keyboard focus, capture
state, the window-interaction hack, the pending text-input flag, the options
read by `check_for_id_clash`, and the externally resolved z-order query
`layer_id_at` (the spec leaves layer ownership to the z-order collaborator). -/
structure Memory where
  /-- The widget id currently holding keyboard focus. -/
  focus : Option Id
  /-- Ids registered as focus candidates via `interested_in_focus`. -/
  focus_interested : List Id
  interaction : Interaction
  /-- `memory.window_interaction` (`Some` while a window is being moved). -/
  window_interaction : Option Unit
  /-- Set when `stop_text_input` is called. -/
  text_input_stopped : Bool
  /-- `options.warn_on_id_clash`. -/
  warn_on_id_clash : Bool
  /-- `memory.layer_id_at(pos)`: the top-most layer under a position. -/
  layer_id_at : Pos2 → Option LayerId

/-- `Memory` default. -/
def Memory.default : Memory :=
  { focus := none, focus_interested := [], interaction := Interaction.default
    window_interaction := none, text_input_stopped := false
    warn_on_id_clash := true, layer_id_at := fun _ => none }

/-- `memory.has_focus(id)`. -/
def Memory.has_focus (m : Memory) (id : Id) : Bool := m.focus == some id

/-- Modelled from the spec: `memory.surrender_focus(id)` — any existing focus
on `id` is released. -/
def Memory.surrender_focus (m : Memory) (id : Id) : Memory :=
  if m.focus == some id then { m with focus := none } else m

/-- Modelled from the spec: `memory.interested_in_focus(id)` — register `id`
as a focus candidate. -/
def Memory.interested_in_focus (m : Memory) (id : Id) : Memory :=
  { m with focus_interested := m.focus_interested ++ [id] }

/-- Modelled from the spec: `memory.stop_text_input()`. -/
def Memory.stop_text_input (m : Memory) : Memory :=
  { m with text_input_stopped := true }

/-- The per-surface transient frame scratch (`egui::frame_state::FrameState`,
external to the reviewed sources): the used widget-id → rect map for clash
detection and the highlight requests. -/
structure FrameState where
  used_ids : List (Id × Rect)
  highlight_this_frame : List Id
  highlight_next_frame : List Id

/-- `FrameState` default. -/
def FrameState.default : FrameState :=
  { used_ids := [], highlight_this_frame := [], highlight_next_frame := [] }

instance : Inhabited FrameState := ⟨FrameState.default⟩

/-- Modelled from the spec: `FrameState::begin_frame` — reset the per-frame
scratch (used ids) and rotate the highlight requests. -/
def FrameState.begin_frame (fs : FrameState) : FrameState :=
  { used_ids := []
    highlight_this_frame := fs.highlight_next_frame
    highlight_next_frame := [] }

/-- The platform output accumulated during a frame (`PlatformOutput`, external
to the reviewed sources); modelled by its clipboard field. -/
structure PlatformOutput where
  copied_text : String
deriving DecidableEq

/-- `PlatformOutput::default()`. -/
def PlatformOutput.default : PlatformOutput := { copied_text := "" }

instance : Inhabited PlatformOutput := ⟨PlatformOutput.default⟩

/-- The font/text subsystem handle; its internals are an external collaborator
(`epaint::text::Fonts`), so it is modelled as a token. -/
structure Fonts where
  ready : Unit
deriving DecidableEq

-- ---------------------------------------------------------------------------
-- Viewport registry
-- ---------------------------------------------------------------------------

/-- Cross-surface command payload (`ViewportCommand`); opaque to this engine. -/
abbrev ViewportCommand := Nat

/-- `ViewportBuilder`: the build descriptor; its `id` is the registry key. -/
structure ViewportBuilder where
  id : Id
deriving DecidableEq

/-- A registered viewport record (`struct Viewport`): build descriptor, surface
pair, used-this-cycle flag, and whether a render callback is attached. -/
structure Viewport where
  builder : ViewportBuilder
  pair : ViewportIdPair
  used : Bool
  has_render : Bool
deriving DecidableEq

/-- One layer's geometry list: `(widget id, interact rect)` in call order. -/
abbrev LayerRects := LayerId → List (Id × Rect)

/-- The empty geometry snapshot (a fresh `HashMap`). -/
def LayerRects.empty : LayerRects := fun _ => []

/-- The kind of diagnostic text painted by `check_for_id_clash`
(`"Double use of …"`, `"First use of …"`, `"Second use of …"`). -/
inductive DiagKind where
  | doubleUse
  | firstUse
  | secondUse
deriving DecidableEq

/-- `HashMap::insert` on an association list: replace the value at an existing
key in place, or append a fresh binding. -/
def assocInsert {α β : Type} [BEq α] (l : List (α × β)) (k : α) (v : β) : List (α × β) :=
  if l.any (fun kv => kv.1 == k) then
    l.map (fun kv => if kv.1 == k then (k, v) else kv)
  else
    l ++ [(k, v)]

-- ---------------------------------------------------------------------------
-- The shared context state (`struct ContextImpl`)
-- ---------------------------------------------------------------------------

/-- `struct ContextImpl`: the guarded mutable state bag.  `HashMap`s keyed by
surface id are modelled as `Option`-valued functions ("absent" = never
framed); the viewport registry is an association list keyed by the builder id
(key order is irrelevant to every property below).  Fields that belong to
external collaborators (texture manager, paint stats, graphics lists, loaders,
animation) are omitted: no reviewed control flow depends on them. -/
structure ContextImpl where
  /-- `None` until the start of the first frame. -/
  fonts : Option Fonts
  memory : Memory
  input : ViewportId → Option InputState
  frame_state : ViewportId → Option FrameState
  /-- The stack of open frames; innermost (current) is last. -/
  frame_stack : List ViewportIdPair
  output : ViewportId → Option PlatformOutput
  repaint : Repaint
  /-- The viewport registry, keyed by `ViewportBuilder::id`. -/
  viewports : List (Id × Viewport)
  viewport_commands : List (ViewportId × ViewportCommand)
  viewport_counter : Nat
  is_desktop : Bool
  force_embedding : Bool
  /-- Written to during the frame. -/
  layer_rects_this_frame : LayerRects
  layer_rects_this_viewports : ViewportId → Option LayerRects
  /-- Read during the frame (previous frame's snapshot). -/
  layer_rects_prev_frame : LayerRects
  layer_rects_prev_viewports : ViewportId → Option LayerRects
  /-- Diagnostics painted through `show_error` (debug overlay), accumulated. -/
  diagnostics : List (Rect × DiagKind)

/-- `ContextImpl::default()`. -/
def ContextImpl.mkDefault : ContextImpl :=
  { fonts := none
    memory := Memory.default
    input := fun _ => none
    frame_state := fun _ => none
    frame_stack := []
    output := fun _ => none
    repaint := Repaint.default
    viewports := []
    viewport_commands := []
    viewport_counter := 0
    is_desktop := false
    force_embedding := false
    layer_rects_this_frame := LayerRects.empty
    layer_rects_this_viewports := fun _ => none
    layer_rects_prev_frame := LayerRects.empty
    layer_rects_prev_viewports := fun _ => none
    diagnostics := [] }

/-- `Context::default()`: a fresh `ContextImpl` with `force_embedding := true`. -/
def Context.default : ContextImpl :=
  { ContextImpl.mkDefault with force_embedding := true }

namespace ContextImpl

/-- `ContextImpl::viewport_id()`: the top of the frame stack, `MAIN` if empty. -/
def viewport_id (st : ContextImpl) : ViewportId :=
  (st.frame_stack.getLast?.getD ViewportIdPair.MAIN).thisId

/-- `ContextImpl::parent_viewport_id()`. -/
def parent_viewport_id (st : ContextImpl) : ViewportId :=
  (st.frame_stack.getLast?.getD ViewportIdPair.MAIN).parent

/-- `Context::input_for(id, reader)`: reads the per-surface `InputState`,
falling back to `InputState::default()` when the surface was never framed. -/
def input_for (st : ContextImpl) (id : ViewportId) : InputState :=
  (st.input id).getD InputState.default

/-- `Context::output(reader)` generalised to an explicit surface id: reads the
per-surface `PlatformOutput`, falling back to the default when the surface was
never framed (`Context::output` itself reads at `viewport_id()`). -/
def output_for (st : ContextImpl) (id : ViewportId) : PlatformOutput :=
  (st.output id).getD PlatformOutput.default

/-- `Context::fonts(reader)`: panics (`expect`) when called before the first
frame; the panic is embedded as `Except.error` carrying the source message. -/
def fonts_read (st : ContextImpl) : Except String Fonts :=
  match st.fonts with
  | some f => Except.ok f
  | none => Except.error "No fonts available until first call to Context::run()"

/-- `Context::viewport_command_for(id, command)`: queue a cross-surface command. -/
def viewport_command_for (st : ContextImpl) (id : ViewportId) (command : ViewportCommand) :
    ContextImpl :=
  { st with viewport_commands := st.viewport_commands ++ [(id, command)] }

end ContextImpl

-- ---------------------------------------------------------------------------
-- `check_for_id_clash`
-- ---------------------------------------------------------------------------

/-- The decision core of `Context::check_for_id_clash`: given the frame's
`used_ids` map, the `warn_on_id_clash` option, the id and the new rectangle,
return the diagnostics painted and the updated `used_ids` map.  Mirrors the
source exactly: always record the id; bail out without diagnostics if warnings
are off, if the id is fresh, or if either rectangle expanded by `0.1` contains
the other; then paint one "Double use" flag at the new rectangle when the
`min` corners are less than `4.0` apart, and otherwise one flag at each
rectangle. -/
def check_for_id_clash_core (used_ids : List (Id × Rect)) (warn : Bool) (id : Id)
    (new_rect : Rect) : List (Rect × DiagKind) × List (Id × Rect) :=
  let prev := used_ids.lookup id
  let used' := assocInsert used_ids id new_rect
  if !warn then ([], used')
  else
    match prev with
    | none => ([], used')
    | some prev_rect =>
      if (prev_rect.expand (1/10)).contains_rect new_rect
          || (new_rect.expand (1/10)).contains_rect prev_rect then
        ([], used')
      else if Pos2.dist_sq prev_rect.min new_rect.min < 16 then
        ([(new_rect, DiagKind.doubleUse)], used')
      else
        ([(prev_rect, DiagKind.firstUse), (new_rect, DiagKind.secondUse)], used')

/-- `Context::check_for_id_clash` lifted to the context state: updates the
current surface's `used_ids` scratch and appends the painted diagnostics. -/
def ContextImpl.check_for_id_clash (st : ContextImpl) (id : Id) (rect : Rect) : ContextImpl :=
  let fs := (st.frame_state st.viewport_id).getD FrameState.default
  let res := check_for_id_clash_core fs.used_ids st.memory.warn_on_id_clash id rect
  { st with
    frame_state := updFn st.frame_state st.viewport_id (some { fs with used_ids := res.2 })
    diagnostics := st.diagnostics ++ res.1 }

-- ---------------------------------------------------------------------------
-- Viewport registry sweep (`Context::end_frame`, the `viewports.retain` call)
-- ---------------------------------------------------------------------------

/-- The retain predicate of the `end_frame` sweep, evaluated on the record as
it was before the `used`-clearing side effect (the source reads `out = *used`
before clearing, and the clearing never changes `pair`): keep iff
`(used || viewport_id != pair.parent) && avalibile_viewports.contains(parent)`. -/
def sweep_keep (viewport_id : ViewportId) (avalibile_viewports : List ViewportId)
    (v : Viewport) : Bool :=
  (v.used || !(viewport_id == v.pair.parent))
    && avalibile_viewports.contains v.pair.parent

/-- The `used`-clearing side effect of the sweep: a record whose parent is the
surface ending now is marked unused for the next cycle. -/
def sweep_clear (viewport_id : ViewportId) (v : Viewport) : Viewport :=
  if viewport_id == v.pair.parent then { v with used := false } else v

/-- The `ctx.viewports.retain(..)` sweep of `end_frame`: a record is kept iff
(it was marked used this cycle, or its declared parent is not the surface
ending now) and its parent is in `avalibile_viewports`; along the way `used`
is cleared on every record whose parent is the ending surface. -/
def sweep_viewports (viewport_id : ViewportId) (avalibile_viewports : List ViewportId)
    (vs : List (Id × Viewport)) : List (Id × Viewport) :=
  vs.filterMap (fun kv =>
    if sweep_keep viewport_id avalibile_viewports kv.2 then
      some (kv.1, sweep_clear viewport_id kv.2)
    else
      none)

/-- `Context::create_viewport`: when not forced to embed, register (or
refresh) the record under the builder's id with `used = true` and the render
callback attached, allocating a fresh surface id from the counter for new
records; when embedding is forced, invoke the supplied render callback once,
synchronously, with this same context.  The returned `Nat` counts the
synchronous render-callback invocations performed by the call. -/
def ContextImpl.create_viewport (st : ContextImpl) (viewport_builder : ViewportBuilder) :
    ContextImpl × Nat :=
  if !st.force_embedding then
    let viewport_id := st.viewport_id
    match st.viewports.lookup viewport_builder.id with
    | some window =>
      let window := { window with
        builder := viewport_builder
        pair := { window.pair with parent := viewport_id }
        used := true
        has_render := true }
      ({ st with viewports := assocInsert st.viewports viewport_builder.id window }, 0)
    | none =>
      let idNew : ViewportId := st.viewport_counter + 1
      ({ st with
          viewport_counter := st.viewport_counter + 1
          viewports := assocInsert st.viewports viewport_builder.id
            { builder := viewport_builder
              pair := { thisId := idNew, parent := viewport_id }
              used := true
              has_render := true } }, 0)
  else
    (st, 1)

-- ---------------------------------------------------------------------------
-- Interaction arbiter (`Context::interact`, `Context::interact_with_hovered`)
-- ---------------------------------------------------------------------------

/-- `struct Response` (the data fields; the back-reference to the context is
the state threaded alongside).  The `clicked` arrays are indexed by pointer
button. -/
structure Response where
  layer_id : LayerId
  id : Id
  rect : Rect
  sense : Sense
  enabled : Bool
  hovered : Bool
  highlighted : Bool
  clicked : PointerButton → Bool
  double_clicked : PointerButton → Bool
  triple_clicked : PointerButton → Bool
  dragged : Bool
  drag_released : Bool
  is_pointer_button_down_on : Bool
  interact_pointer_pos : Option Pos2
  changed : Bool

/-- Modelled from the spec: `Response::clicked_elsewhere` (in `response.rs`,
external to the reviewed sources) — a pointer click happened this frame at a
position outside the widget's rectangle. -/
def Response.clicked_elsewhere_input (input : InputState) (rect : Rect) : Bool :=
  input.pointer.any_click &&
    (match input.pointer.interact_pos with
     | some p => !rect.contains p
     | none => true)

/-- `Context::rect_contains_pointer`: the rectangle is positive, the pointer
has an interact position inside it, and the top-most layer there is this
widget's layer. -/
def ContextImpl.rect_contains_pointer (st : ContextImpl) (layer_id : LayerId) (rect : Rect) :
    Bool :=
  rect.is_positive &&
    (match (st.input_for st.viewport_id).pointer.interact_pos with
     | some pointer_pos =>
       rect.contains pointer_pos && (st.memory.layer_id_at pointer_pos == some layer_id)
     | none => false)

/-- The occlusion scan of `Context::interact`, applied to the **reversed**
previous-frame geometry list of the widget's layer: walk front-to-back,
keep hover on reaching this widget's own id (nothing painted after it covers
the pointer), revoke hover on first finding an earlier-recorded widget whose
rectangle contains the pointer.  Returns whether hover survives. -/
def resolve_hover_scan : List (Id × Rect) → Id → Pos2 → Bool
  | [], _, _ => true
  | (prev_id, prev_rect) :: rest, id, pointer_pos =>
    if prev_id == id then true
    else if prev_rect.contains pointer_pos then false
    else resolve_hover_scan rest id pointer_pos

/-- One step of the pointer-event fold inside `interact_with_hovered`'s write
closure. -/
def pointer_event_step (sense : Sense) (id : Id) (hovered : Bool)
    (acc : Response × Memory) (ev : PointerEvent) : Response × Memory :=
  let response := acc.1
  let memory := acc.2
  match ev with
  | PointerEvent.moved => (response, memory)
  | PointerEvent.pressed =>
    if hovered then
      let acc :=
        if sense.click && (memory.interaction.click_id == none) then
          ({ response with is_pointer_button_down_on := true },
           { memory with interaction := { memory.interaction with click_id := some id } })
        else (response, memory)
      let response := acc.1
      let memory := acc.2
      -- windows have low priority on dragging: content widgets steal the drag
      if sense.drag && (memory.interaction.drag_id == none
          || memory.interaction.drag_is_window) then
        ({ response with is_pointer_button_down_on := true, dragged := true },
         { memory with
            interaction := { memory.interaction with
                             drag_id := some id, drag_is_window := false }
            window_interaction := none })
      else (response, memory)
    else (response, memory)
  | PointerEvent.released click button =>
    let response := { response with drag_released := response.dragged, dragged := false }
    if hovered && response.is_pointer_button_down_on then
      match click with
      | some c =>
        let clickedNow := hovered && response.is_pointer_button_down_on
        ({ response with
            clicked := updFn response.clicked button clickedNow
            double_clicked := updFn response.double_clicked button (clickedNow && c.is_double)
            triple_clicked := updFn response.triple_clicked button (clickedNow && c.is_triple) },
         memory)
      | none => (response, memory)
    else (response, memory)

/-- The body of the `self.write(..)` closure of `interact_with_hovered`
(the click/drag/focus transition machine), as a pure function of the inputs it
reads: the already-arbitrated hover flag, the surface's input state, the
precomputed `clicked_elsewhere`, the response built so far, and the memory. -/
def interaction_write (sense : Sense) (id : Id) (hovered : Bool) (input : InputState)
    (clicked_elsewhere : Bool) (response : Response) (memory : Memory) :
    Response × Memory :=
  let memory := if sense.focusable then memory.interested_in_focus id else memory
  let response :=
    if sense.click && memory.has_focus id
        && (input.key_space_pressed || input.key_enter_pressed) then
      -- space/enter works like a primary click for focused widgets
      { response with clicked := updFn response.clicked 0 true }
    else response
  let acc :=
    if sense.click || sense.drag then
      let memory := { memory with interaction := { memory.interaction with
        click_interest := memory.interaction.click_interest || (hovered && sense.click)
        drag_interest := memory.interaction.drag_interest || (hovered && sense.drag) } }
      let response := { response with
        dragged := memory.interaction.drag_id == some id }
      let response := { response with
        is_pointer_button_down_on :=
          (memory.interaction.click_id == some id) || response.dragged }
      input.pointer.pointer_events.foldl (pointer_event_step sense id hovered)
        (response, memory)
    else (response, memory)
  let response := acc.1
  let memory := acc.2
  let response :=
    if response.is_pointer_button_down_on then
      { response with interact_pointer_pos := input.pointer.interact_pos }
    else response
  let response :=
    if input.pointer.any_down then
      -- we don't hover widgets while interacting with *other* widgets
      { response with hovered := response.hovered && response.is_pointer_button_down_on }
    else response
  let memory :=
    if memory.has_focus id && clicked_elsewhere then memory.surrender_focus id else memory
  let memory :=
    if response.dragged && !memory.has_focus id then memory.stop_text_input else memory
  (response, memory)

/-- `Context::interact_with_hovered`: given the already-arbitrated hover flag,
build the `Response` and run the click/drag/focus transitions. -/
def ContextImpl.interact_with_hovered (st : ContextImpl) (layer_id : LayerId) (id : Id)
    (rect : Rect) (sense : Sense) (enabled : Bool) (hovered : Bool) :
    Response × ContextImpl :=
  let hovered := hovered && enabled
  let fs := (st.frame_state st.viewport_id).getD FrameState.default
  let highlighted := fs.highlight_this_frame.contains id
  let response : Response :=
    { layer_id := layer_id, id := id, rect := rect, sense := sense, enabled := enabled
      hovered := hovered, highlighted := highlighted
      clicked := fun _ => false, double_clicked := fun _ => false
      triple_clicked := fun _ => false
      dragged := false, drag_released := false, is_pointer_button_down_on := false
      interact_pointer_pos := none, changed := false }
  if !enabled || !sense.focusable || !layer_id.allow_interaction then
    -- Not interested or allowed input: surrender any focus held by this id
    (response, { st with memory := st.memory.surrender_focus id })
  else
    let st := st.check_for_id_clash id rect
    -- source: `ctx.input.get_mut(&viewport_id).unwrap()`; during a frame the
    -- entry exists (begin_frame inserted it), so the default never shows
    let input := st.input_for st.viewport_id
    let clicked_elsewhere := Response.clicked_elsewhere_input input rect
    let rm := interaction_write sense id hovered input clicked_elsewhere response st.memory
    (rm.1, { st with memory := rm.2 })

/-- The interact rectangle computed at the top of `Context::interact`: the
nominal rectangle expanded by half the item spacing minus the `0.1` gap
(clamped to `[0, 5]` per side), then intersected with the clip rectangle. -/
def interact_rect_of (clip_rect : Rect) (item_spacing : Vec2) (rect : Rect) : Rect :=
  let gap : Rat := 1/10
  -- make it easier to click things:
  let interact_rect := rect.expand2
    ((((Vec2.scale (1/2) item_spacing).sub (Vec2.splat gap)).at_least
        (Vec2.splat 0)).at_most (Vec2.splat 5))
  -- respect the clip rectangle when interacting:
  clip_rect.intersect interact_rect

/-- `Context::interact`: compute the interact rectangle, compute raw hover,
register the geometry, arbitrate occlusion against the previous frame's list,
and delegate to `interact_with_hovered`. -/
def ContextImpl.interact (st : ContextImpl) (clip_rect : Rect) (item_spacing : Vec2)
    (layer_id : LayerId) (id : Id) (rect : Rect) (sense : Sense) (enabled : Bool) :
    Response × ContextImpl :=
  let interact_rect := interact_rect_of clip_rect item_spacing rect
  let hovered := st.rect_contains_pointer layer_id interact_rect
  if interact_rect.is_positive && sense.interactive then
    -- whichever widget is added LAST (= on top) gets the input
    let newRects := st.layer_rects_this_frame layer_id ++ [(id, interact_rect)]
    let st := { st with
      layer_rects_this_frame := updFn st.layer_rects_this_frame layer_id newRects }
    let hovered :=
      if hovered then
        match (st.input_for st.viewport_id).pointer.interact_pos with
        | some pointer_pos =>
          resolve_hover_scan ((st.layer_rects_prev_frame layer_id).reverse) id pointer_pos
        | none => hovered
      else hovered
    st.interact_with_hovered layer_id id rect sense enabled hovered
  else
    st.interact_with_hovered layer_id id rect sense enabled hovered

-- ---------------------------------------------------------------------------
-- Frame lifecycle (`ContextImpl::begin_frame_mut`, `Context::end_frame`)
-- ---------------------------------------------------------------------------

/-- `ViewportOutput`: one registered record as reported back to the caller. -/
structure ViewportOutput where
  builder : ViewportBuilder
  pair : ViewportIdPair
  has_render : Bool
deriving DecidableEq

/-- `FullOutput` restricted to the fields produced by the reviewed control
flow (texture deltas and draw shapes are external collaborators). -/
structure FullOutput where
  platform_output : PlatformOutput
  viewports : List ViewportOutput
  viewport_commands : List (ViewportId × ViewportCommand)

/-- `ContextImpl::begin_frame_mut`: pause the parent frame if one is active
(stash its current/previous geometry snapshots under its surface id), push the
new surface pair, lazily create the surface's output slot, advance the repaint
scheduler, restore this surface's stashed previous-frame snapshot, feed the
raw input into the per-surface input model, reset the frame scratch and ensure
the font subsystem exists.  (The pixel-density override rescaling only
rewrites the incoming raw input's screen rectangle and the background-area
seeding only touches the external `memory.areas`; neither affects a modelled
field.) -/
def ContextImpl.begin_frame_mut (st : ContextImpl) (new_raw_input : RawInput)
    (pair : ViewportIdPair) : ContextImpl :=
  -- this is used to pause the last frame
  let st :=
    if st.frame_stack.isEmpty then st
    else
      let viewport_id := st.viewport_id
      { st with
        layer_rects_this_viewports :=
          updFn st.layer_rects_this_viewports viewport_id (some st.layer_rects_this_frame)
        layer_rects_this_frame := LayerRects.empty
        layer_rects_prev_viewports :=
          updFn st.layer_rects_prev_viewports viewport_id (some st.layer_rects_prev_frame)
        layer_rects_prev_frame := LayerRects.empty }
  let st := { st with frame_stack := st.frame_stack ++ [pair] }
  let st := { st with
    output := updFn st.output st.viewport_id
      (some ((st.output st.viewport_id).getD PlatformOutput.default)) }
  let st := { st with repaint := st.repaint.start_frame st.viewport_id }
  let st := { st with
    layer_rects_prev_frame := (st.layer_rects_prev_viewports pair.thisId).getD LayerRects.empty
    layer_rects_prev_viewports := updFn st.layer_rects_prev_viewports pair.thisId none }
  -- memory.begin_frame routes focus events inside the external memory model
  let newInput := ((st.input pair.thisId).getD InputState.default).begin_frame new_raw_input
  let st := { st with input := updFn st.input pair.thisId (some newInput) }
  let st := { st with
    frame_state := updFn st.frame_state pair.thisId
      (some ((st.frame_state pair.thisId).getD FrameState.default).begin_frame) }
  -- update_fonts_mut: load fonts unless already loaded
  { st with fonts := some ⟨()⟩ }

/-- `Context::end_frame`: stash the finished surface's geometry as its
previous-frame snapshot, honour the input model's implicit repaint request,
take the platform output, compute the reachable surfaces, sweep the viewport
registry, pop the frame stack, then either resume the paused parent
(restoring its stashed snapshots; the source `unwrap`s them — they are always
present for a paused parent) or, for the outermost frame, purge all
per-surface state of unreachable surfaces; finally advance the repaint
scheduler and return the output, draining the queued cross-surface commands
only for the outermost frame. -/
def ContextImpl.end_frame (st : ContextImpl) : FullOutput × ContextImpl :=
  let st := { st with
    layer_rects_prev_viewports :=
      updFn st.layer_rects_prev_viewports st.viewport_id (some st.layer_rects_this_frame)
    layer_rects_this_frame := LayerRects.empty }
  let st :=
    if (st.input_for st.viewport_id).wants_repaint then
      { st with repaint := st.repaint.request_repaint st.viewport_id }
    else st
  -- memory.end_frame, font-image and texture deltas: external collaborators
  let platform_output := (st.output st.viewport_id).getD PlatformOutput.default
  let st := { st with
    output := updFn st.output st.viewport_id (some PlatformOutput.default) }
  -- reachable surfaces: the main viewport plus every registered record
  let avalibile_viewports :=
    ViewportId.MAIN :: st.viewports.map (fun kv => kv.2.pair.thisId)
  let viewport_id := st.viewport_id
  -- every record (kept or dropped) is reported back to the caller
  let viewport_outputs := st.viewports.map (fun kv =>
    ViewportOutput.mk kv.2.builder kv.2.pair kv.2.has_render)
  let st := { st with
    viewports := sweep_viewports viewport_id avalibile_viewports st.viewports }
  -- this is used to resume the last frame
  let st := { st with frame_stack := st.frame_stack.dropLast }
  let is_last := st.frame_stack.isEmpty
  let st :=
    if !is_last then
      let vid := st.viewport_id
      { st with
        layer_rects_prev_frame := (st.layer_rects_prev_viewports vid).getD LayerRects.empty
        layer_rects_prev_viewports := updFn st.layer_rects_prev_viewports vid none
        layer_rects_this_frame := (st.layer_rects_this_viewports vid).getD LayerRects.empty
        layer_rects_this_viewports := updFn st.layer_rects_this_viewports vid none }
    else
      -- context cleanup: drop per-surface state of unreachable surfaces
      { st with
        input := fun id => if avalibile_viewports.contains id then st.input id else none
        layer_rects_prev_viewports := fun id =>
          if avalibile_viewports.contains id then st.layer_rects_prev_viewports id else none
        layer_rects_this_viewports := fun id =>
          if avalibile_viewports.contains id then st.layer_rects_this_viewports id else none
        output := fun id => if avalibile_viewports.contains id then st.output id else none
        frame_state := fun id =>
          if avalibile_viewports.contains id then st.frame_state id else none }
  let st := { st with repaint := st.repaint.end_frame viewport_id avalibile_viewports }
  -- viewport commands are suppressed for nested (sync) frames to avoid
  -- a deadlock against the realization callback
  let res :=
    if is_last then (st.viewport_commands, { st with viewport_commands := [] })
    else ([], st)
  ({ platform_output := platform_output
     viewports := viewport_outputs
     viewport_commands := res.1 }, res.2)

-- ---------------------------------------------------------------------------
-- Frame-call traces (for the stack-balance invariant)
-- ---------------------------------------------------------------------------

/-- One frame-lifecycle call: `begin_frame(raw, pair)` or `end_frame()`. -/
inductive FrameOp where
  | begin (raw : RawInput) (pair : ViewportIdPair)
  | endF

/-- Execute a sequence of frame-lifecycle calls on the context state. -/
def run_frame_ops : List FrameOp → ContextImpl → ContextImpl
  | [], st => st
  | FrameOp.begin raw pair :: ops, st => run_frame_ops ops (st.begin_frame_mut raw pair)
  | FrameOp.endF :: ops, st => run_frame_ops ops ((st.end_frame).2)

/-- The pure effect of a call sequence on the frame stack alone: `begin`
pushes its pair at the end, `end_frame` pops the last element. -/
def run_stack_ops : List FrameOp → List ViewportIdPair → List ViewportIdPair
  | [], s => s
  | FrameOp.begin _ pair :: ops, s => run_stack_ops ops (s ++ [pair])
  | FrameOp.endF :: ops, s => run_stack_ops ops s.dropLast

/-- Matched (balanced) call sequences: empty, a `begin` closed by its matching
`end_frame` around a matched body, or two matched sequences in a row. -/
inductive MatchedOps : List FrameOp → Prop where
  | nil : MatchedOps []
  | nest (raw : RawInput) (pair : ViewportIdPair) {ops : List FrameOp} :
      MatchedOps ops → MatchedOps (FrameOp.begin raw pair :: ops ++ [FrameOp.endF])
  | append {a b : List FrameOp} :
      MatchedOps a → MatchedOps b → MatchedOps (a ++ b)

-- ---------------------------------------------------------------------------
-- Concrete fixtures for the interaction-arbiter scenarios
-- ---------------------------------------------------------------------------

/-- A single interactable layer. -/
def c1_layer : LayerId := ⟨0, true⟩

/-- Input with the pointer idle at `(5, 5)` and no events. -/
def c1_input : InputState :=
  { pointer := { interact_pos := some ⟨5, 5⟩, any_down := false, any_click := false
                 pointer_events := [] }
    screen_rect := ⟨⟨0, 0⟩, ⟨100, 100⟩⟩
    key_space_pressed := false
    key_enter_pressed := false
    wants_repaint := false }

/-- A context mid-frame on the main surface, pointer at `(5, 5)`, the layer
query resolving to `c1_layer`, and an **empty** previous-frame geometry list
(a first frame). -/
def c1_state : ContextImpl :=
  { ContextImpl.mkDefault with
    frame_stack := [ViewportIdPair.MAIN]
    input := fun v => if v = 0 then some c1_input else none
    memory := { Memory.default with layer_id_at := fun _ => some c1_layer } }

/-- The same context in steady state: the previous frame's geometry list for
the layer holds the same two widgets, in registration order. -/
def c1_state_steady : ContextImpl :=
  { c1_state with
    layer_rects_prev_frame := fun l =>
      if l = c1_layer then [(1, ⟨⟨0, 0⟩, ⟨10, 10⟩⟩), (2, ⟨⟨0, 0⟩, ⟨10, 10⟩⟩)] else [] }

/-- `Sense::click()`: clickable and focusable. -/
def c1_sense : Sense := ⟨true, false, true⟩

-- ---------------------------------------------------------------------------
-- Helper lemmas
-- ---------------------------------------------------------------------------

theorem updFn_same {α β : Type} [DecidableEq α] (f : α → β) (a : α) (b : β) :
    updFn f a b a = b := by
  simp [updFn]

theorem updFn_other {α β : Type} [DecidableEq α] (f : α → β) (a x : α) (b : β)
    (h : x ≠ a) : updFn f a b x = f x := by
  simp [updFn, h]

-- ---------------------------------------------------------------------------
-- C2: repaint settle counter decay 2 → 1 → 0
-- ---------------------------------------------------------------------------

/-- C2: with a wake callback registered, `request_repaint_settle` leaves the
surface's repaint counter at exactly 2 and invokes the callback (once); the
first subsequent `start_frame` leaves the counter at 1 and issues exactly one
additional request (one more callback invocation), and the second
`start_frame` leaves the counter at 0 and issues none. -/
theorem repaint_settle_decay (r : Repaint) (s : ViewportId)
    (hcb : r.has_callback = true) :
    ((r.request_repaint_settle s).repaint_request s = 2 ∧
      (r.request_repaint_settle s).callback_invocations = r.callback_invocations + 1) ∧
    (((r.request_repaint_settle s).start_frame s).repaint_request s = 1 ∧
      ((r.request_repaint_settle s).start_frame s).callback_invocations =
        (r.request_repaint_settle s).callback_invocations + 1) ∧
    ((((r.request_repaint_settle s).start_frame s).start_frame s).repaint_request s = 0 ∧
      (((r.request_repaint_settle s).start_frame s).start_frame s).callback_invocations =
        ((r.request_repaint_settle s).start_frame s).callback_invocations) := by
  simp [Repaint.request_repaint_settle, Repaint.request_repaint,
    Repaint.request_repaint_after, Repaint.start_frame, updFn_same, updFn, hcb]

/-- Witness for C2 at a concrete scheduler state. -/
theorem repaint_settle_decay_witness :
    ({ Repaint.default with has_callback := true } : Repaint).has_callback = true ∧
    (let r : Repaint := { Repaint.default with has_callback := true }
     ((r.request_repaint_settle 0).repaint_request 0 = 2 ∧
       (r.request_repaint_settle 0).callback_invocations = r.callback_invocations + 1) ∧
     (((r.request_repaint_settle 0).start_frame 0).repaint_request 0 = 1 ∧
       ((r.request_repaint_settle 0).start_frame 0).callback_invocations =
         (r.request_repaint_settle 0).callback_invocations + 1) ∧
     ((((r.request_repaint_settle 0).start_frame 0).start_frame 0).repaint_request 0 = 0 ∧
       (((r.request_repaint_settle 0).start_frame 0).start_frame 0).callback_invocations =
         ((r.request_repaint_settle 0).start_frame 0).callback_invocations)) :=
  ⟨rfl, repaint_settle_decay { Repaint.default with has_callback := true } 0 rfl⟩

-- ---------------------------------------------------------------------------
-- C7: lazy defaults before the first frame; fonts reader is a fault
-- ---------------------------------------------------------------------------

/-- C7: before the first `begin_frame` for a surface (no input/output entry
exists yet), the per-surface accessors return default values rather than
failing, for every surface id; reading the fonts before the first frame is a
fatal fault carrying the source's "not available" message. -/
theorem accessors_before_first_frame (st : ContextImpl) (id : ViewportId)
    (hin : st.input id = none) (hout : st.output id = none) (hf : st.fonts = none) :
    st.input_for id = InputState.default ∧
    st.output_for id = PlatformOutput.default ∧
    st.fonts_read =
      Except.error "No fonts available until first call to Context::run()" := by
  refine ⟨?_, ?_, ?_⟩
  · simp [ContextImpl.input_for, hin]
  · simp [ContextImpl.output_for, hout]
  · simp [ContextImpl.fonts_read, hf]

/-- Witness for C7 on a freshly constructed context. -/
theorem accessors_before_first_frame_witness :
    ContextImpl.mkDefault.input 7 = none ∧
    ContextImpl.mkDefault.output 7 = none ∧
    ContextImpl.mkDefault.fonts = none ∧
    (ContextImpl.mkDefault.input_for 7 = InputState.default ∧
      ContextImpl.mkDefault.output_for 7 = PlatformOutput.default ∧
      ContextImpl.mkDefault.fonts_read =
        Except.error "No fonts available until first call to Context::run()") :=
  ⟨rfl, rfl, rfl, accessors_before_first_frame ContextImpl.mkDefault 7 rfl rfl rfl⟩

-- ---------------------------------------------------------------------------
-- C10: create_viewport under forced embedding
-- ---------------------------------------------------------------------------

/-- C10: `Context::default()` has `force_embedding` set, and on any context
with `force_embedding` set `create_viewport` leaves the state untouched (in
particular the viewport registry and the viewport id counter) and invokes the
supplied render callback exactly once, synchronously, with the same context. -/
theorem create_viewport_embedding :
    Context.default.force_embedding = true ∧
    ∀ (st : ContextImpl) (b : ViewportBuilder), st.force_embedding = true →
      st.create_viewport b = (st, 1) := by
  refine ⟨rfl, fun st b h => ?_⟩
  simp [ContextImpl.create_viewport, h]

/-- Witness for C10 on the default context. -/
theorem create_viewport_embedding_witness :
    Context.default.force_embedding = true ∧
    Context.default.create_viewport ⟨3⟩ = (Context.default, 1) :=
  ⟨rfl, create_viewport_embedding.2 Context.default ⟨3⟩ rfl⟩

-- ---------------------------------------------------------------------------
-- C8: cross-surface commands are drained only by the outermost end_frame
-- ---------------------------------------------------------------------------

/-- C8: `end_frame` returns the queued cross-surface viewport commands exactly
when it ends the outermost frame (the frame stack becomes empty after the
pop); for a nested/paused frame the returned command list is empty and the
queue is left untouched for the outermost `end_frame` to drain. -/
theorem end_frame_commands (st : ContextImpl) :
    (st.frame_stack.dropLast = [] →
      (st.end_frame).1.viewport_commands = st.viewport_commands ∧
      (st.end_frame).2.viewport_commands = []) ∧
    (st.frame_stack.dropLast ≠ [] →
      (st.end_frame).1.viewport_commands = [] ∧
      (st.end_frame).2.viewport_commands = st.viewport_commands) := by
  constructor <;> intro h <;>
    simp [ContextImpl.end_frame, h, List.isEmpty_iff] <;>
    split <;> simp_all

/-- Witness for C8: a nested frame (stack of depth 2) suppresses the queued
command, and the outermost frame (stack of depth 1) drains it. -/
theorem end_frame_commands_witness :
    (let nested : ContextImpl := { ContextImpl.mkDefault with
        frame_stack := [ViewportIdPair.MAIN, ⟨1, 0⟩]
        viewport_commands := [(1, 42)] }
     nested.frame_stack.dropLast ≠ [] ∧
     (nested.end_frame).1.viewport_commands = [] ∧
     (nested.end_frame).2.viewport_commands = nested.viewport_commands) ∧
    (let outer : ContextImpl := { ContextImpl.mkDefault with
        frame_stack := [ViewportIdPair.MAIN]
        viewport_commands := [(1, 42)] }
     outer.frame_stack.dropLast = [] ∧
     (outer.end_frame).1.viewport_commands = outer.viewport_commands ∧
     (outer.end_frame).2.viewport_commands = []) := by
  constructor
  · exact ⟨by simp, (end_frame_commands _).2 (by simp)⟩
  · exact ⟨by simp, (end_frame_commands _).1 (by simp)⟩

-- ---------------------------------------------------------------------------
-- C3: duplicate-id diagnostics
-- ---------------------------------------------------------------------------

/-- C3 counterexample: two registrations of the same id whose rectangle
**centers** are at least 4 units apart and that do not contain each other
after the `0.1` expansion — exactly the claim's "two diagnostics" premise —
yet the code produces only ONE diagnostic ("Double use", at the second
rectangle), because the source compares the rectangles' `min` corners (here
identical), not their centers. -/
theorem check_for_id_clash_centers_counterexample :
    let prevR : Rect := ⟨⟨0, 0⟩, ⟨1, 1⟩⟩
    let newR : Rect := ⟨⟨0, 0⟩, ⟨10, 1/2⟩⟩
    16 ≤ Pos2.dist_sq prevR.center newR.center ∧
    (prevR.expand (1/10)).contains_rect newR = false ∧
    (newR.expand (1/10)).contains_rect prevR = false ∧
    (check_for_id_clash_core [(1, prevR)] true 1 newR).1 =
      [(newR, DiagKind.doubleUse)] := by
  refine ⟨by norm_num [Pos2.dist_sq, Rect.center],
    by norm_num [Rect.contains_rect, Rect.contains, Rect.expand],
    by norm_num [Rect.contains_rect, Rect.contains, Rect.expand], ?_⟩
  norm_num [check_for_id_clash_core, List.lookup, Rect.contains_rect, Rect.contains,
    Rect.expand, Pos2.dist_sq]

/-- C3 amended: with the warning option enabled and the id already registered
this frame at `prev_rect`, the second registration produces: no diagnostic
when either rectangle expanded by `0.1` contains the other; exactly one
diagnostic (a "Double use" flag at the new rectangle) when the rectangles'
`min` corners are less than 4 units apart; and exactly two diagnostics (one at
the first rectangle, one at the second) when the `min` corners are at least
4 units apart — the tolerance is measured between `min` corners, not centers,
and the within-tolerance case yields one flag, not zero. -/
theorem check_for_id_clash_cases (used : List (Id × Rect)) (id : Id)
    (prev_rect new_rect : Rect) (h : used.lookup id = some prev_rect) :
    ((prev_rect.expand (1/10)).contains_rect new_rect = true ∨
        (new_rect.expand (1/10)).contains_rect prev_rect = true →
      (check_for_id_clash_core used true id new_rect).1 = []) ∧
    ((prev_rect.expand (1/10)).contains_rect new_rect = false →
      (new_rect.expand (1/10)).contains_rect prev_rect = false →
      Pos2.dist_sq prev_rect.min new_rect.min < 16 →
      (check_for_id_clash_core used true id new_rect).1 =
        [(new_rect, DiagKind.doubleUse)]) ∧
    ((prev_rect.expand (1/10)).contains_rect new_rect = false →
      (new_rect.expand (1/10)).contains_rect prev_rect = false →
      16 ≤ Pos2.dist_sq prev_rect.min new_rect.min →
      (check_for_id_clash_core used true id new_rect).1 =
        [(prev_rect, DiagKind.firstUse), (new_rect, DiagKind.secondUse)]) := by
  refine ⟨fun hc => ?_, fun hc1 hc2 hd => ?_, fun hc1 hc2 hd => ?_⟩
  · rcases hc with hc | hc <;> simp only [one_div] at hc <;>
      simp [check_for_id_clash_core, h, hc]
  · simp only [one_div] at hc1 hc2
    simp [check_for_id_clash_core, h, hc1, hc2, hd]
  · simp only [one_div] at hc1 hc2
    simp [check_for_id_clash_core, h, hc1, hc2, not_lt.mpr hd]

/-- Witness for C3's amended statement: a far-apart pair produces the two
flags, a containing pair produces none. -/
theorem check_for_id_clash_cases_witness :
    (check_for_id_clash_core [(1, (⟨⟨0, 0⟩, ⟨1, 1⟩⟩ : Rect))] true 1
        ⟨⟨20, 0⟩, ⟨21, 1⟩⟩).1 =
      [((⟨⟨0, 0⟩, ⟨1, 1⟩⟩ : Rect), DiagKind.firstUse),
       ((⟨⟨20, 0⟩, ⟨21, 1⟩⟩ : Rect), DiagKind.secondUse)] ∧
    (check_for_id_clash_core [(1, (⟨⟨0, 0⟩, ⟨10, 10⟩⟩ : Rect))] true 1
        ⟨⟨1, 1⟩, ⟨9, 9⟩⟩).1 = [] := by
  constructor
  · exact (check_for_id_clash_cases [(1, ⟨⟨0, 0⟩, ⟨1, 1⟩⟩)] 1 ⟨⟨0, 0⟩, ⟨1, 1⟩⟩
        ⟨⟨20, 0⟩, ⟨21, 1⟩⟩ rfl).2.2
      (by norm_num [Rect.contains_rect, Rect.contains, Rect.expand])
      (by norm_num [Rect.contains_rect, Rect.contains, Rect.expand])
      (by norm_num [Pos2.dist_sq])
  · exact (check_for_id_clash_cases [(1, ⟨⟨0, 0⟩, ⟨10, 10⟩⟩)] 1 ⟨⟨0, 0⟩, ⟨10, 10⟩⟩
        ⟨⟨1, 1⟩, ⟨9, 9⟩⟩ rfl).1
      (Or.inl (by norm_num [Rect.contains_rect, Rect.contains, Rect.expand]))

-- ---------------------------------------------------------------------------
-- C9: disabled / non-interactable widgets
-- ---------------------------------------------------------------------------

/-- C9 counterexample: an **enabled** widget whose sense is not focusable (so
the early-return branch for "not interactable" is taken) still reports
`hovered = true` when it was hovered — the claim's "hovered, pressed, and
dragged flags are all false" fails on the hovered flag, which the code only
ands with `enabled`. -/
theorem interact_with_hovered_hover_counterexample :
    let sense : Sense := ⟨true, false, false⟩
    let layer : LayerId := ⟨0, true⟩
    let res := ContextImpl.mkDefault.interact_with_hovered layer 7
      ⟨⟨0, 0⟩, ⟨10, 10⟩⟩ sense true true
    sense.focusable = false ∧ res.1.hovered = true :=
  ⟨rfl, rfl⟩

/-- C9 amended: when the widget is disabled, its sense is not focusable, or
its layer disallows interaction, `interact_with_hovered` releases any keyboard
focus held by the widget's id and returns immediately with
`is_pointer_button_down_on`, `dragged`, `drag_released` and every `clicked`
flag false — and with `hovered` equal to the incoming hover flag anded with
`enabled` (hence false whenever the widget is disabled, but possibly true for
an enabled, hovered, non-focusable widget). -/
theorem interact_with_hovered_not_interactable (st : ContextImpl) (layer_id : LayerId)
    (id : Id) (rect : Rect) (sense : Sense) (enabled : Bool) (hovered : Bool)
    (h : enabled = false ∨ sense.focusable = false ∨ layer_id.allow_interaction = false) :
    (st.interact_with_hovered layer_id id rect sense enabled hovered).1.hovered
        = (hovered && enabled) ∧
    (st.interact_with_hovered layer_id id rect sense enabled
        hovered).1.is_pointer_button_down_on = false ∧
    (st.interact_with_hovered layer_id id rect sense enabled hovered).1.dragged = false ∧
    (st.interact_with_hovered layer_id id rect sense enabled hovered).1.drag_released
        = false ∧
    (∀ b, (st.interact_with_hovered layer_id id rect sense enabled hovered).1.clicked b
        = false) ∧
    (st.interact_with_hovered layer_id id rect sense enabled hovered).2
        = { st with memory := st.memory.surrender_focus id } := by
  have hguard : (!enabled || !sense.focusable || !layer_id.allow_interaction) = true := by
    rcases h with h | h | h <;> simp [h]
  simp [ContextImpl.interact_with_hovered, hguard]

/-- Witness for C9's amended statement: a disabled widget that holds keyboard
focus loses it, and every interaction flag of the response is false. -/
theorem interact_with_hovered_not_interactable_witness :
    (let st : ContextImpl :=
      { ContextImpl.mkDefault with memory := { Memory.default with focus := some 7 } }
     let layer : LayerId := ⟨0, true⟩
     let sense : Sense := ⟨true, false, true⟩
     (st.interact_with_hovered layer 7 ⟨⟨0, 0⟩, ⟨10, 10⟩⟩ sense false true).1.hovered
         = (true && false) ∧
     (st.interact_with_hovered layer 7 ⟨⟨0, 0⟩, ⟨10, 10⟩⟩ sense false
         true).1.is_pointer_button_down_on = false ∧
     (st.interact_with_hovered layer 7 ⟨⟨0, 0⟩, ⟨10, 10⟩⟩ sense false true).1.dragged
         = false ∧
     (st.interact_with_hovered layer 7 ⟨⟨0, 0⟩, ⟨10, 10⟩⟩ sense false true).1.drag_released
         = false ∧
     (∀ b, (st.interact_with_hovered layer 7 ⟨⟨0, 0⟩, ⟨10, 10⟩⟩ sense false true).1.clicked b
         = false) ∧
     (st.interact_with_hovered layer 7 ⟨⟨0, 0⟩, ⟨10, 10⟩⟩ sense false true).2
         = { st with memory := st.memory.surrender_focus 7 }) ∧
    (({ ContextImpl.mkDefault with
        memory := { Memory.default with focus := some 7 } } : ContextImpl).memory.surrender_focus
        7).focus = none :=
  ⟨interact_with_hovered_not_interactable _ ⟨0, true⟩ 7 ⟨⟨0, 0⟩, ⟨10, 10⟩⟩ ⟨true, false, true⟩
      false true (Or.inl rfl), rfl⟩

-- ---------------------------------------------------------------------------
-- Frame-lifecycle field lemmas (shared by C4, C5, C6)
-- ---------------------------------------------------------------------------

theorem end_frame_viewports (st : ContextImpl) :
    ((st.end_frame).2).viewports =
      sweep_viewports st.viewport_id
        (ViewportId.MAIN :: st.viewports.map (fun kv => kv.2.pair.thisId))
        st.viewports := by
  simp only [ContextImpl.end_frame, ContextImpl.viewport_id]
  split_ifs <;> rfl

theorem begin_frame_stack (st : ContextImpl) (raw : RawInput) (pair : ViewportIdPair) :
    (st.begin_frame_mut raw pair).frame_stack = st.frame_stack ++ [pair] := by
  simp only [ContextImpl.begin_frame_mut]
  split <;> rfl

theorem end_frame_stack (st : ContextImpl) :
    ((st.end_frame).2).frame_stack = st.frame_stack.dropLast := by
  simp only [ContextImpl.end_frame]
  split_ifs <;> rfl

theorem begin_frame_this_viewports (st : ContextImpl) (raw : RawInput)
    (pair : ViewportIdPair) (h : st.frame_stack ≠ []) :
    (st.begin_frame_mut raw pair).layer_rects_this_viewports =
      updFn st.layer_rects_this_viewports st.viewport_id (some st.layer_rects_this_frame) := by
  have hne : st.frame_stack.isEmpty = false := by
    simp [List.isEmpty_iff, h]
  simp only [ContextImpl.begin_frame_mut, hne]
  rfl

theorem begin_frame_prev_viewports (st : ContextImpl) (raw : RawInput)
    (pair : ViewportIdPair) (h : st.frame_stack ≠ []) :
    (st.begin_frame_mut raw pair).layer_rects_prev_viewports =
      updFn (updFn st.layer_rects_prev_viewports st.viewport_id
        (some st.layer_rects_prev_frame)) pair.thisId none := by
  have hne : st.frame_stack.isEmpty = false := by
    simp [List.isEmpty_iff, h]
  simp only [ContextImpl.begin_frame_mut, hne]
  rfl

theorem end_frame_this_frame_resume (st : ContextImpl)
    (h : st.frame_stack.dropLast ≠ []) :
    ((st.end_frame).2).layer_rects_this_frame =
      (st.layer_rects_this_viewports
        (st.frame_stack.dropLast.getLast?.getD ViewportIdPair.MAIN).thisId).getD
        LayerRects.empty := by
  have hne : st.frame_stack.dropLast.isEmpty = false := by
    simp [List.isEmpty_iff, h]
  simp only [ContextImpl.end_frame]
  split_ifs <;> simp_all <;> rfl

theorem end_frame_prev_frame_resume (st : ContextImpl)
    (h : st.frame_stack.dropLast ≠ []) :
    ((st.end_frame).2).layer_rects_prev_frame =
      ((updFn st.layer_rects_prev_viewports st.viewport_id
          (some st.layer_rects_this_frame))
        (st.frame_stack.dropLast.getLast?.getD ViewportIdPair.MAIN).thisId).getD
        LayerRects.empty := by
  have hne : st.frame_stack.dropLast.isEmpty = false := by
    simp [List.isEmpty_iff, h]
  simp only [ContextImpl.end_frame]
  split_ifs <;> simp_all <;> rfl

/-- Two bindings of the same key in an association list with nodup keys carry
the same value. -/
theorem assoc_nodup_eq {α β : Type} [DecidableEq α] :
    ∀ {l : List (α × β)} {k : α} {v w : β},
      (l.map Prod.fst).Nodup → (k, v) ∈ l → (k, w) ∈ l → v = w := by
  intro l
  induction l with
  | nil => intro k v w _ hv _; cases hv
  | cons kv rest ih =>
    intro k v w hnd hv hw
    rw [List.map_cons, List.nodup_cons] at hnd
    rcases List.mem_cons.mp hv with hv | hv <;> rcases List.mem_cons.mp hw with hw | hw
    · rw [← hv] at hw; exact congrArg Prod.snd hw.symm
    · exfalso
      apply hnd.1
      rw [← hv]
      exact List.mem_map.mpr ⟨(k, w), hw, rfl⟩
    · exfalso
      apply hnd.1
      rw [← hw]
      exact List.mem_map.mpr ⟨(k, v), hv, rfl⟩
    · exact ih hnd.2 hv hw

/-- The sweep's keep predicate, in propositional form. -/
theorem sweep_keep_iff (vid : ViewportId) (avail : List ViewportId) (v : Viewport) :
    sweep_keep vid avail v = true ↔
      ((v.used = true ∨ vid ≠ v.pair.parent) ∧ v.pair.parent ∈ avail) := by
  simp [sweep_keep, List.contains, List.elem_iff]

-- ---------------------------------------------------------------------------
-- C5: viewport-registry garbage collection
-- ---------------------------------------------------------------------------

/-- C5: a registered viewport record that was not re-requested this cycle
(`used = false`) and whose declared parent is the surface ending now is absent
from the registry after `end_frame` — this is exactly the fate of a record
created in frame N and not re-requested during its parent's frame N+1; and in
general the sweep keeps a record exactly when (it was marked used this cycle,
or its declared parent is not the surface ending now) and its parent is in the
reachable set (the main surface plus all registered surface ids). -/
theorem viewport_gc (st : ContextImpl) (k : Id) (v : Viewport)
    (hnodup : (st.viewports.map Prod.fst).Nodup)
    (hmem : (k, v) ∈ st.viewports)
    (hused : v.used = false)
    (hparent : v.pair.parent = st.viewport_id) :
    (∀ v', (k, v') ∉ ((st.end_frame).2).viewports) ∧
    (∀ k' v', (k', v') ∈ st.viewports →
      ((∃ v'', (k', v'') ∈ ((st.end_frame).2).viewports) ↔
        ((v'.used = true ∨ st.viewport_id ≠ v'.pair.parent) ∧
          v'.pair.parent ∈
            ViewportId.MAIN :: st.viewports.map (fun kv => kv.2.pair.thisId)))) := by
  constructor
  · intro v' hv'
    rw [end_frame_viewports] at hv'
    unfold sweep_viewports at hv'
    rcases List.mem_filterMap.mp hv' with ⟨⟨a, b⟩, hab, heq⟩
    split at heq
    case isTrue hkeep =>
      rw [Option.some.injEq] at heq
      have hak : a = k := congrArg Prod.fst heq
      rw [hak] at hab
      have hbv : b = v := assoc_nodup_eq hnodup hab hmem
      rw [hbv] at hkeep
      rcases (sweep_keep_iff _ _ _).mp hkeep with ⟨hor, _⟩
      rcases hor with h1 | h1
      · rw [hused] at h1; cases h1
      · exact h1 hparent.symm
    case isFalse => cases heq
  · intro k' v' hmem'
    constructor
    · rintro ⟨v'', hv''⟩
      rw [end_frame_viewports] at hv''
      unfold sweep_viewports at hv''
      rcases List.mem_filterMap.mp hv'' with ⟨⟨a, b⟩, hab, heq⟩
      split at heq
      case isTrue hkeep =>
        rw [Option.some.injEq] at heq
        have hak : a = k' := congrArg Prod.fst heq
        rw [hak] at hab
        have hbv : b = v' := assoc_nodup_eq hnodup hab hmem'
        rw [hbv] at hkeep
        exact (sweep_keep_iff _ _ _).mp hkeep
      case isFalse => cases heq
    · intro hcond
      refine ⟨sweep_clear st.viewport_id v', ?_⟩
      rw [end_frame_viewports]
      apply List.mem_filterMap.mpr
      refine ⟨(k', v'), hmem', ?_⟩
      rw [if_pos ((sweep_keep_iff _ _ _).mpr hcond)]

/-- Witness for C5: a single unused record whose parent is the ending (main)
surface is dropped by `end_frame`. -/
theorem viewport_gc_witness :
    (let st : ContextImpl := { ContextImpl.mkDefault with
        frame_stack := [ViewportIdPair.MAIN]
        viewports := [(5, { builder := ⟨5⟩, pair := ⟨3, 0⟩
                            used := false, has_render := true })] }
     (st.viewports.map Prod.fst).Nodup ∧
     (∀ v', ((5 : Id), v') ∉ ((st.end_frame).2).viewports)) := by
  refine ⟨by simp, ?_⟩
  exact (viewport_gc
    { ContextImpl.mkDefault with
      frame_stack := [ViewportIdPair.MAIN]
      viewports := [(5, { builder := ⟨5⟩, pair := ⟨3, 0⟩
                          used := false, has_render := true })] }
    5 { builder := ⟨5⟩, pair := ⟨3, 0⟩, used := false, has_render := true }
    (by simp) (by simp) rfl rfl).1

-- ---------------------------------------------------------------------------
-- C4: pause/resume round-trip of geometry snapshots
-- ---------------------------------------------------------------------------

/-- C4: with surface A mid-frame (non-empty frame stack), beginning a nested
frame for a distinct surface B stashes A's current and previous layer-geometry
snapshots, and B's matching `end_frame` restores them exactly — regardless of
what B's frame did to the in-progress snapshot fields and to any other
per-frame state (`mid` is any state whose frame stack and stash maps are those
produced by the `begin_frame_mut`). -/
theorem pause_resume_roundtrip (st mid : ContextImpl) (raw : RawInput)
    (pairB : ViewportIdPair)
    (hstk : st.frame_stack ≠ [])
    (hne : pairB.thisId ≠ st.viewport_id)
    (hmid_stack : mid.frame_stack = (st.begin_frame_mut raw pairB).frame_stack)
    (hmid_this : mid.layer_rects_this_viewports =
      (st.begin_frame_mut raw pairB).layer_rects_this_viewports)
    (hmid_prev : mid.layer_rects_prev_viewports =
      (st.begin_frame_mut raw pairB).layer_rects_prev_viewports) :
    ((mid.end_frame).2).layer_rects_this_frame = st.layer_rects_this_frame ∧
    ((mid.end_frame).2).layer_rects_prev_frame = st.layer_rects_prev_frame := by
  have hstack : mid.frame_stack = st.frame_stack ++ [pairB] := by
    rw [hmid_stack, begin_frame_stack]
  have hdrop : mid.frame_stack.dropLast = st.frame_stack := by
    rw [hstack, List.dropLast_concat]
  have hds : mid.frame_stack.dropLast ≠ [] := by rw [hdrop]; exact hstk
  have hvidA : (mid.frame_stack.dropLast.getLast?.getD ViewportIdPair.MAIN).thisId
      = st.viewport_id := by
    rw [hdrop]; rfl
  have hvidB : mid.viewport_id = pairB.thisId := by
    unfold ContextImpl.viewport_id
    rw [hstack, List.getLast?_concat]
    rfl
  constructor
  · rw [end_frame_this_frame_resume mid hds, hvidA, hmid_this,
      begin_frame_this_viewports st raw pairB hstk, updFn_same]
    rfl
  · rw [end_frame_prev_frame_resume mid hds, hvidA,
      updFn_other _ _ _ _ (by rw [hvidB]; exact fun hc => hne hc.symm),
      hmid_prev, begin_frame_prev_viewports st raw pairB hstk,
      updFn_other _ _ _ _ (fun hc => hne hc.symm), updFn_same]
    rfl

/-- Witness for C4: the main surface mid-frame with non-trivial snapshots,
paused for surface 1 and resumed, gets its snapshots back verbatim. -/
theorem pause_resume_roundtrip_witness :
    (let st : ContextImpl := { ContextImpl.mkDefault with
        frame_stack := [ViewportIdPair.MAIN]
        layer_rects_this_frame := fun _ => [(1, ⟨⟨0, 0⟩, ⟨1, 1⟩⟩)]
        layer_rects_prev_frame := fun _ => [(2, ⟨⟨2, 2⟩, ⟨3, 3⟩⟩)] }
     let mid := st.begin_frame_mut ⟨InputState.default⟩ ⟨1, 0⟩
     st.frame_stack ≠ [] ∧ (1 : ViewportId) ≠ st.viewport_id ∧
     ((mid.end_frame).2).layer_rects_this_frame = st.layer_rects_this_frame ∧
     ((mid.end_frame).2).layer_rects_prev_frame = st.layer_rects_prev_frame) := by
  refine ⟨by simp, by decide, ?_⟩
  exact pause_resume_roundtrip _ _ ⟨InputState.default⟩ ⟨1, 0⟩ (by simp) (by decide)
    rfl rfl rfl

-- ---------------------------------------------------------------------------
-- C6: frame-stack balance
-- ---------------------------------------------------------------------------

theorem run_frame_stack : ∀ (ops : List FrameOp) (st : ContextImpl),
    (run_frame_ops ops st).frame_stack = run_stack_ops ops st.frame_stack := by
  intro ops
  induction ops with
  | nil => intro st; rfl
  | cons op rest ih =>
    intro st
    cases op with
    | begin raw pair =>
      rw [run_frame_ops, run_stack_ops, ih, begin_frame_stack]
    | endF =>
      rw [run_frame_ops, run_stack_ops, ih, end_frame_stack]

theorem run_stack_ops_append : ∀ (a b : List FrameOp) (s : List ViewportIdPair),
    run_stack_ops (a ++ b) s = run_stack_ops b (run_stack_ops a s) := by
  intro a
  induction a with
  | nil => intro b s; rfl
  | cons op rest ih =>
    intro b s
    cases op <;> simp only [List.cons_append, run_stack_ops] <;> exact ih b _

theorem matched_run_stack {ops : List FrameOp} (h : MatchedOps ops) :
    ∀ s, run_stack_ops ops s = s := by
  induction h with
  | nil => intro s; rfl
  | nest raw pair hops ih =>
    rename_i ops1
    intro s
    have h1 : run_stack_ops (FrameOp.begin raw pair :: ops1 ++ [FrameOp.endF]) s
        = run_stack_ops (ops1 ++ [FrameOp.endF]) (s ++ [pair]) := rfl
    rw [h1, run_stack_ops_append, ih]
    have h2 : run_stack_ops [FrameOp.endF] (s ++ [pair]) = (s ++ [pair]).dropLast := rfl
    rw [h2]
    exact List.dropLast_concat
  | append ha hb iha ihb =>
    intro s
    rw [run_stack_ops_append, iha, ihb]

theorem prefix_split : ∀ (a b t : List FrameOp),
    (∃ u, t ++ u = a ++ b) →
    (∃ u, t ++ u = a) ∨ ∃ t2, t = a ++ t2 ∧ ∃ u, t2 ++ u = b := by
  intro a
  induction a with
  | nil =>
    intro b t h
    exact Or.inr ⟨t, rfl, h⟩
  | cons x a' ih =>
    intro b t h
    cases t with
    | nil => exact Or.inl ⟨x :: a', rfl⟩
    | cons y t' =>
      rcases h with ⟨u, hu⟩
      rw [List.cons_append, List.cons_append, List.cons.injEq] at hu
      rcases ih b t' ⟨u, hu.2⟩ with ⟨u', hu'⟩ | ⟨t2, ht2, hrest⟩
      · exact Or.inl ⟨u', by rw [List.cons_append, hu', hu.1]⟩
      · exact Or.inr ⟨t2, by rw [List.cons_append, ← ht2, hu.1], hrest⟩

theorem matched_prefix_length {ops : List FrameOp} (h : MatchedOps ops) :
    ∀ (t : List FrameOp) (s : List ViewportIdPair), (∃ u, t ++ u = ops) →
      s.length ≤ (run_stack_ops t s).length := by
  induction h with
  | nil =>
    intro t s hpre
    rcases hpre with ⟨u, hu⟩
    rcases List.append_eq_nil.mp hu with ⟨ht, _⟩
    rw [ht]
    exact Nat.le_refl _
  | nest raw pair hops ih =>
    intro t s hpre
    rcases hpre with ⟨u, hu⟩
    cases t with
    | nil => exact Nat.le_refl _
    | cons y t' =>
      injection hu with hy hrest
      have h1 : run_stack_ops (y :: t') s = run_stack_ops t' (s ++ [pair]) := by
        rw [hy]; rfl
      rw [h1]
      rcases prefix_split _ _ t' ⟨u, hrest⟩ with hpre' | ⟨t2, ht2, ⟨u2, hu2⟩⟩
      · calc s.length ≤ (s ++ [pair]).length := by simp
          _ ≤ (run_stack_ops t' (s ++ [pair])).length := ih t' (s ++ [pair]) hpre'
      · cases t2 with
        | nil =>
          rw [List.append_nil] at ht2
          calc s.length ≤ (s ++ [pair]).length := by simp
            _ ≤ (run_stack_ops t' (s ++ [pair])).length :=
              ih t' (s ++ [pair]) ⟨[], by rw [List.append_nil, ht2]⟩
        | cons z t3 =>
          rw [List.cons_append] at hu2
          injection hu2 with hz hu3
          have ht3 : t3 = [] := (List.append_eq_nil.mp hu3).1
          rw [ht2, hz, ht3, run_stack_ops_append, matched_run_stack hops]
          simp only [run_stack_ops, List.dropLast_concat]
          exact Nat.le_refl _
  | append ha hb iha ihb =>
    intro t s hpre
    rcases prefix_split _ _ t hpre with hpre' | ⟨t2, ht2, hpre2⟩
    · exact iha t s hpre'
    · rw [ht2, run_stack_ops_append, matched_run_stack ha]
      exact ihb t2 s hpre2

/-- C6: every `begin_frame` pushes exactly one surface pair and every
`end_frame` pops exactly one, so a matched sequence of calls returns the frame
stack to its prior state, and the stack is never empty between a `begin` and
its matching `end` (after a `begin` and any prefix of a matched body, the
stack is non-empty). -/
theorem frame_stack_balance (ops : List FrameOp) (st : ContextImpl)
    (h : MatchedOps ops) :
    (run_frame_ops ops st).frame_stack = st.frame_stack ∧
    (∀ (raw : RawInput) (pair : ViewportIdPair) (t : List FrameOp),
      (∃ u, t ++ u = ops) →
      (run_frame_ops (FrameOp.begin raw pair :: t) st).frame_stack ≠ []) := by
  constructor
  · rw [run_frame_stack]
    exact matched_run_stack h _
  · intro raw pair t hpre
    rw [run_frame_stack]
    simp only [run_stack_ops]
    have hlen := matched_prefix_length h t (st.frame_stack ++ [pair]) hpre
    intro hempty
    rw [hempty] at hlen
    simp at hlen

/-- Witness for C6: one begin/end pair on a fresh context. -/
theorem frame_stack_balance_witness :
    MatchedOps [FrameOp.begin ⟨InputState.default⟩ ⟨1, 0⟩, FrameOp.endF] ∧
    ((run_frame_ops [FrameOp.begin ⟨InputState.default⟩ ⟨1, 0⟩, FrameOp.endF]
        ContextImpl.mkDefault).frame_stack = ContextImpl.mkDefault.frame_stack ∧
      ∀ (raw : RawInput) (pair : ViewportIdPair) (t : List FrameOp),
        (∃ u, t ++ u = [FrameOp.begin ⟨InputState.default⟩ ⟨1, 0⟩, FrameOp.endF]) →
        (run_frame_ops (FrameOp.begin raw pair :: t)
          ContextImpl.mkDefault).frame_stack ≠ []) :=
  have hm : MatchedOps [FrameOp.begin ⟨InputState.default⟩ ⟨1, 0⟩, FrameOp.endF] :=
    MatchedOps.nest ⟨InputState.default⟩ ⟨1, 0⟩ MatchedOps.nil
  ⟨hm, frame_stack_balance _ ContextImpl.mkDefault hm⟩

-- ---------------------------------------------------------------------------
-- C1: overlapping-widget hover arbitration
-- ---------------------------------------------------------------------------

-- `Batteries` seals the `Rat` field arithmetic against unfolding; unseal it so
-- concrete geometry evaluates by `decide` (the kernel ignores the attribute).
attribute [local semireducible] Rat.add Rat.mul Rat.sub Rat.inv

theorem surrender_focus_layer_id_at (m : Memory) (id : Id) :
    (m.surrender_focus id).layer_id_at = m.layer_id_at := by
  unfold Memory.surrender_focus
  split <;> rfl

theorem pointer_event_step_memory_layer_id_at (sense : Sense) (id : Id) (hovered : Bool)
    (acc : Response × Memory) (ev : PointerEvent) :
    ((pointer_event_step sense id hovered acc ev).2).layer_id_at = acc.2.layer_id_at := by
  unfold pointer_event_step
  cases ev <;> simp only [] <;> split_ifs <;> (try rfl) <;> (try split <;> rfl)

theorem pointer_event_step_hovered (sense : Sense) (id : Id) (hovered : Bool)
    (acc : Response × Memory) (ev : PointerEvent) :
    ((pointer_event_step sense id hovered acc ev).1).hovered = acc.1.hovered := by
  unfold pointer_event_step
  cases ev <;> simp only [] <;> split_ifs <;> (try rfl) <;> (try split <;> rfl)

theorem foldl_pointer_event_memory_layer_id_at (sense : Sense) (id : Id) (hovered : Bool) :
    ∀ (l : List PointerEvent) (acc : Response × Memory),
      ((l.foldl (pointer_event_step sense id hovered) acc).2).layer_id_at
        = acc.2.layer_id_at := by
  intro l
  induction l with
  | nil => intro acc; rfl
  | cons ev rest ih =>
    intro acc
    rw [List.foldl_cons, ih, pointer_event_step_memory_layer_id_at]

theorem foldl_pointer_event_hovered (sense : Sense) (id : Id) (hovered : Bool) :
    ∀ (l : List PointerEvent) (acc : Response × Memory),
      ((l.foldl (pointer_event_step sense id hovered) acc).1).hovered
        = acc.1.hovered := by
  intro l
  induction l with
  | nil => intro acc; rfl
  | cons ev rest ih =>
    intro acc
    rw [List.foldl_cons, ih, pointer_event_step_hovered]

theorem ite_stop_text_layer_id_at (c : Prop) [Decidable c] (m : Memory) :
    (if c then m.stop_text_input else m).layer_id_at = m.layer_id_at := by
  split <;> rfl

theorem ite_surrender_layer_id_at (c : Prop) [Decidable c] (m : Memory) (id : Id) :
    (if c then m.surrender_focus id else m).layer_id_at = m.layer_id_at := by
  split
  · exact surrender_focus_layer_id_at m id
  · rfl

theorem interaction_write_layer_id_at (sense : Sense) (id : Id) (hovered : Bool)
    (input : InputState) (ce : Bool) (response : Response) (memory : Memory) :
    ((interaction_write sense id hovered input ce response memory).2).layer_id_at
      = memory.layer_id_at := by
  unfold interaction_write
  simp only [ite_stop_text_layer_id_at, ite_surrender_layer_id_at]
  split_ifs <;>
    simp [foldl_pointer_event_memory_layer_id_at, Memory.interested_in_focus]

theorem interaction_write_hovered (sense : Sense) (id : Id) (hovered : Bool)
    (input : InputState) (ce : Bool) (response : Response) (memory : Memory)
    (hnd : input.pointer.any_down = false) :
    ((interaction_write sense id hovered input ce response memory).1).hovered
      = response.hovered := by
  unfold interaction_write
  simp only [hnd]
  split_ifs <;> try contradiction
  all_goals simp [foldl_pointer_event_hovered]

theorem interact_with_hovered_input (st : ContextImpl) (L : LayerId) (id : Id)
    (rect : Rect) (sense : Sense) (enabled hovered : Bool) :
    ((st.interact_with_hovered L id rect sense enabled hovered).2).input = st.input := by
  unfold ContextImpl.interact_with_hovered
  split_ifs <;> rfl

theorem interact_with_hovered_frame_stack (st : ContextImpl) (L : LayerId) (id : Id)
    (rect : Rect) (sense : Sense) (enabled hovered : Bool) :
    ((st.interact_with_hovered L id rect sense enabled hovered).2).frame_stack
      = st.frame_stack := by
  unfold ContextImpl.interact_with_hovered
  split_ifs <;> rfl

theorem interact_with_hovered_prev_frame (st : ContextImpl) (L : LayerId) (id : Id)
    (rect : Rect) (sense : Sense) (enabled hovered : Bool) :
    ((st.interact_with_hovered L id rect sense enabled hovered).2).layer_rects_prev_frame
      = st.layer_rects_prev_frame := by
  unfold ContextImpl.interact_with_hovered
  split_ifs <;> rfl

theorem interact_with_hovered_layer_id_at (st : ContextImpl) (L : LayerId) (id : Id)
    (rect : Rect) (sense : Sense) (enabled hovered : Bool) :
    ((st.interact_with_hovered L id rect sense enabled
        hovered).2).memory.layer_id_at = st.memory.layer_id_at := by
  unfold ContextImpl.interact_with_hovered
  split_ifs <;>
    simp [surrender_focus_layer_id_at, interaction_write_layer_id_at,
      ContextImpl.check_for_id_clash]

theorem interact_with_hovered_hovered (st : ContextImpl) (L : LayerId) (id : Id)
    (rect : Rect) (sense : Sense) (enabled hovered : Bool)
    (hnd : (st.input_for st.viewport_id).pointer.any_down = false) :
    ((st.interact_with_hovered L id rect sense enabled hovered).1).hovered
      = (hovered && enabled) := by
  unfold ContextImpl.interact_with_hovered
  split_ifs
  · rfl
  · rw [interaction_write_hovered]
    exact hnd

theorem interact_input (st : ContextImpl) (clip : Rect) (spacing : Vec2) (L : LayerId)
    (id : Id) (rect : Rect) (sense : Sense) (enabled : Bool) :
    ((st.interact clip spacing L id rect sense enabled).2).input = st.input := by
  simp only [ContextImpl.interact]
  split_ifs <;> rw [interact_with_hovered_input]

theorem interact_frame_stack (st : ContextImpl) (clip : Rect) (spacing : Vec2)
    (L : LayerId) (id : Id) (rect : Rect) (sense : Sense) (enabled : Bool) :
    ((st.interact clip spacing L id rect sense enabled).2).frame_stack
      = st.frame_stack := by
  simp only [ContextImpl.interact]
  split_ifs <;> rw [interact_with_hovered_frame_stack]

theorem interact_prev_frame (st : ContextImpl) (clip : Rect) (spacing : Vec2)
    (L : LayerId) (id : Id) (rect : Rect) (sense : Sense) (enabled : Bool) :
    ((st.interact clip spacing L id rect sense enabled).2).layer_rects_prev_frame
      = st.layer_rects_prev_frame := by
  simp only [ContextImpl.interact]
  split_ifs <;> rw [interact_with_hovered_prev_frame]

theorem interact_layer_id_at (st : ContextImpl) (clip : Rect) (spacing : Vec2)
    (L : LayerId) (id : Id) (rect : Rect) (sense : Sense) (enabled : Bool) :
    ((st.interact clip spacing L id rect sense enabled).2).memory.layer_id_at
      = st.memory.layer_id_at := by
  simp only [ContextImpl.interact]
  split_ifs <;> rw [interact_with_hovered_layer_id_at]

/-- The hover flag returned by `interact` for an enabled, sense-interactive
widget whose positive interact rectangle contains the pointer (with its layer
on top there and no pointer button down) is exactly the occlusion scan over
the previous frame's geometry list. -/
theorem interact_hover_arbitration (st : ContextImpl) (clip : Rect) (spacing : Vec2)
    (L : LayerId) (id : Id) (rect : Rect) (sense : Sense) (p : Pos2)
    (hp : (st.input_for st.viewport_id).pointer.interact_pos = some p)
    (hnd : (st.input_for st.viewport_id).pointer.any_down = false)
    (hlay : st.memory.layer_id_at p = some L)
    (hpos : (interact_rect_of clip spacing rect).is_positive = true)
    (hcont : (interact_rect_of clip spacing rect).contains p = true)
    (hsi : sense.interactive = true) :
    (st.interact clip spacing L id rect sense true).1.hovered
      = resolve_hover_scan ((st.layer_rects_prev_frame L).reverse) id p := by
  have hraw : st.rect_contains_pointer L (interact_rect_of clip spacing rect) = true := by
    unfold ContextImpl.rect_contains_pointer
    rw [hp]
    simp [hpos, hcont, hlay]
  simp only [ContextImpl.interact]
  rw [hraw, hpos, hsi]
  simp only [Bool.and_self, if_true]
  simp only [ContextImpl.input_for, ContextImpl.viewport_id] at hp
  simp only [ContextImpl.input_for, ContextImpl.viewport_id]
  rw [hp]
  rw [interact_with_hovered_hovered]
  · simp
  · simpa only [ContextImpl.input_for, ContextImpl.viewport_id] using hnd

/-- C1 counterexample: on a first frame (empty previous-frame geometry list),
two enabled, interactive widgets registered in the same layer in the same
frame with identical interact rectangles containing the pointer are **both**
reported hovered — the earlier-registered widget does not get
`hovered = false` as the claim requires, because occlusion is judged against
the previous frame's list only. -/
theorem interact_first_frame_counterexample :
    (interact_rect_of ⟨⟨0, 0⟩, ⟨100, 100⟩⟩ ⟨0, 0⟩ ⟨⟨0, 0⟩, ⟨10, 10⟩⟩).contains ⟨5, 5⟩
        = true ∧
    c1_sense.interactive = true ∧
    (let stepA := c1_state.interact ⟨⟨0, 0⟩, ⟨100, 100⟩⟩ ⟨0, 0⟩ c1_layer 1
        ⟨⟨0, 0⟩, ⟨10, 10⟩⟩ c1_sense true
     let stepB := stepA.2.interact ⟨⟨0, 0⟩, ⟨100, 100⟩⟩ ⟨0, 0⟩ c1_layer 2
        ⟨⟨0, 0⟩, ⟨10, 10⟩⟩ c1_sense true
     stepA.1.hovered = true ∧ stepB.1.hovered = true) := by
  refine ⟨by decide, rfl, by decide⟩

/-- C1 amended: the last-registered-wins arbitration holds in steady state —
when the previous frame's geometry list for the layer records the same two
widgets in the same order (A before B), the pointer lies in both interact
rectangles (B's recorded rectangle containing it), no pointer button is down
and both widgets are enabled and sense-interactive, then registering A then B
in the current frame reports A not hovered and B hovered. -/
theorem interact_overlap_last_wins
    (st : ContextImpl) (clipA clipB : Rect) (spacingA spacingB : Vec2) (L : LayerId)
    (idA idB : Id) (rectA rectB : Rect) (senseA senseB : Sense) (p : Pos2) (rA rB : Rect)
    (hp : (st.input_for st.viewport_id).pointer.interact_pos = some p)
    (hnd : (st.input_for st.viewport_id).pointer.any_down = false)
    (hlay : st.memory.layer_id_at p = some L)
    (hprev : st.layer_rects_prev_frame L = [(idA, rA), (idB, rB)])
    (hne : idA ≠ idB)
    (hrB : rB.contains p = true)
    (hposA : (interact_rect_of clipA spacingA rectA).is_positive = true)
    (hcontA : (interact_rect_of clipA spacingA rectA).contains p = true)
    (hsiA : senseA.interactive = true)
    (hposB : (interact_rect_of clipB spacingB rectB).is_positive = true)
    (hcontB : (interact_rect_of clipB spacingB rectB).contains p = true)
    (hsiB : senseB.interactive = true) :
    (st.interact clipA spacingA L idA rectA senseA true).1.hovered = false ∧
    (((st.interact clipA spacingA L idA rectA senseA true).2).interact clipB spacingB L
      idB rectB senseB true).1.hovered = true := by
  have hA := interact_hover_arbitration st clipA spacingA L idA rectA senseA p
    hp hnd hlay hposA hcontA hsiA
  have hv1 : ((st.interact clipA spacingA L idA rectA senseA true).2).viewport_id
      = st.viewport_id := by
    unfold ContextImpl.viewport_id
    rw [interact_frame_stack]
  have hin1 : ((st.interact clipA spacingA L idA rectA senseA true).2).input_for
      ((st.interact clipA spacingA L idA rectA senseA true).2).viewport_id
      = st.input_for st.viewport_id := by
    unfold ContextImpl.input_for
    rw [hv1, interact_input]
  have hp1 : (((st.interact clipA spacingA L idA rectA senseA true).2).input_for
      ((st.interact clipA spacingA L idA rectA
        senseA true).2).viewport_id).pointer.interact_pos = some p := by
    rw [hin1]; exact hp
  have hnd1 : (((st.interact clipA spacingA L idA rectA senseA true).2).input_for
      ((st.interact clipA spacingA L idA rectA
        senseA true).2).viewport_id).pointer.any_down = false := by
    rw [hin1]; exact hnd
  have hlay1 : ((st.interact clipA spacingA L idA rectA
      senseA true).2).memory.layer_id_at p = some L := by
    rw [interact_layer_id_at]; exact hlay
  have hprev1 : ((st.interact clipA spacingA L idA rectA
      senseA true).2).layer_rects_prev_frame L = [(idA, rA), (idB, rB)] := by
    rw [interact_prev_frame]; exact hprev
  have hB := interact_hover_arbitration
    ((st.interact clipA spacingA L idA rectA senseA true).2) clipB spacingB L idB rectB
    senseB p hp1 hnd1 hlay1 hposB hcontB hsiB
  constructor
  · rw [hA, hprev]
    simp [resolve_hover_scan, beq_iff_eq, Ne.symm hne, hrB]
  · rw [hB, hprev1]
    simp [resolve_hover_scan]

/-- Witness for C1's amended statement: the steady-state context with widgets
1 then 2 recorded last frame; re-registering them this frame hovers only
widget 2. -/
theorem interact_overlap_last_wins_witness :
    (c1_state_steady.interact ⟨⟨0, 0⟩, ⟨100, 100⟩⟩ ⟨0, 0⟩ c1_layer 1
      ⟨⟨0, 0⟩, ⟨10, 10⟩⟩ c1_sense true).1.hovered = false ∧
    (((c1_state_steady.interact ⟨⟨0, 0⟩, ⟨100, 100⟩⟩ ⟨0, 0⟩ c1_layer 1
      ⟨⟨0, 0⟩, ⟨10, 10⟩⟩ c1_sense true).2).interact ⟨⟨0, 0⟩, ⟨100, 100⟩⟩ ⟨0, 0⟩ c1_layer 2
      ⟨⟨0, 0⟩, ⟨10, 10⟩⟩ c1_sense true).1.hovered = true :=
  interact_overlap_last_wins c1_state_steady ⟨⟨0, 0⟩, ⟨100, 100⟩⟩ ⟨⟨0, 0⟩, ⟨100, 100⟩⟩
    ⟨0, 0⟩ ⟨0, 0⟩ c1_layer 1 2 ⟨⟨0, 0⟩, ⟨10, 10⟩⟩ ⟨⟨0, 0⟩, ⟨10, 10⟩⟩ c1_sense c1_sense
    ⟨5, 5⟩ ⟨⟨0, 0⟩, ⟨10, 10⟩⟩ ⟨⟨0, 0⟩, ⟨10, 10⟩⟩
    rfl rfl rfl rfl (by decide) (by decide) (by decide) (by decide) rfl
    (by decide) (by decide) rfl

end Egui
